import Mathlib

/-!
Verification development for the FPL fixture-difficulty repository
(single source file: Python code/FPL_API.py).

The development shallowly embeds the data model and the analysis core:

* `FDREntry` is one row of the flattened fixture-difficulty table produced
  by the flattening loop of get_fpl_fdr (two rows per raw fixture, written
  to fpl_fdr_all.xlsx and re-read by the analysis).
* `flattenFixture` is the body of the flattening loop of get_fpl_fdr.
* `analyze_next_5_fixtures_fdr` is the analysis core: filter the entries to
  the gameweek range, group by team, window, aggregate, sort and rank.

Modelling conventions: machine floats are modelled with rationals (every
difficulty is a small integer, every window holds at most five of them, so
the float64 mean determines and is determined by the exact rational mean);
blank spreadsheet cells (the empty string in the Python row dictionaries)
are `none`; a Python function that returns None on failure returns `none`.
The pandas sorts (sort_values) are modelled with an insertion sort: pandas
guarantees the output is ordered by the key but its default quicksort gives
no guarantee on the relative order of equal keys, and every ordering fact
proved below is insensitive to how equal keys are arranged.
-/

namespace FPL

/-- One per-team perspective on one fixture: a row of the table built by
get_fpl_fdr (source lines 178 to 201) and consumed by the analysis. -/
structure FDREntry where
  fixture_id : Int
  gameweek : Int
  team : String
  opponent : String
  home_away : String
  difficulty_rating : Int
  kickoff_time : String
  finished : Bool
  deriving Repr, DecidableEq

/-- The fields of one raw fixture payload used by the flattening loop of
get_fpl_fdr. -/
structure RawFixture where
  id : Int
  event : Int
  team_h : Nat
  team_a : Nat
  team_h_difficulty : Int
  team_a_difficulty : Int
  kickoff_time : String
  finished : Bool
  deriving Repr, DecidableEq

/-- The two records appended for one raw fixture in the flattening loop of
get_fpl_fdr (lines 178 to 201): a home-perspective record and an
away-perspective record.  A missing team id raises KeyError in the source,
which aborts the whole function; here the failure is `none`. -/
def flattenFixture (teams : Nat → Option String) (fixture : RawFixture) :
    Option (List FDREntry) :=
  match teams fixture.team_h, teams fixture.team_a with
  | some home_name, some away_name =>
      some [{ fixture_id := fixture.id
              gameweek := fixture.event
              team := home_name
              opponent := away_name
              home_away := "Home"
              difficulty_rating := fixture.team_h_difficulty
              kickoff_time := fixture.kickoff_time
              finished := fixture.finished },
            { fixture_id := fixture.id
              gameweek := fixture.event
              team := away_name
              opponent := home_name
              home_away := "Away"
              difficulty_rating := fixture.team_a_difficulty
              kickoff_time := fixture.kickoff_time
              finished := fixture.finished }]
  | _, _ => none

/-- The whole flattening loop of get_fpl_fdr: two records per raw fixture in
payload order; a missing team id aborts the run (the broad except of the
source returns None, modelled as `none`). -/
def get_fpl_fdr_entries (teams : Nat → Option String) :
    List RawFixture → Option (List FDREntry)
  | [] => some []
  | fixture :: rest => do
      let pair ← flattenFixture teams fixture
      let tail ← get_fpl_fdr_entries teams rest
      pure (pair ++ tail)

/-- One output row of analyze_next_5_fixtures_fdr before the rank column is
attached (the dictionary built at lines 267 to 287).  Blank cells (the empty
string in the source) are `none`. -/
structure TeamRow where
  team : String
  fixtures_analyzed : Nat
  average_fdr : ℚ
  total_fdr : Int
  gw1_opponent : Option String
  gw1_fdr : Option Int
  gw1_home_away : Option String
  gw2_opponent : Option String
  gw2_fdr : Option Int
  gw2_home_away : Option String
  gw3_opponent : Option String
  gw3_fdr : Option Int
  gw3_home_away : Option String
  gw4_opponent : Option String
  gw4_fdr : Option Int
  gw4_home_away : Option String
  gw5_opponent : Option String
  gw5_fdr : Option Int
  gw5_home_away : Option String
  deriving Repr, DecidableEq

/-- The distinct values of a column in order of first occurrence, as
returned by the pandas unique method used at line 261. -/
def seriesUnique : List String → List String
  | [] => []
  | x :: rest => x :: (seriesUnique rest).filter (fun y => y != x)

/-- The sort of the per-team entries by ascending gameweek at line 262
(sort_values on the gameweek column). -/
def sortByGameweek (l : List FDREntry) : List FDREntry :=
  List.insertionSort (fun a b => a.gameweek ≤ b.gameweek) l

/-- Line 257: the entries whose gameweek lies in the inclusive range from
start_gameweek to start_gameweek + 4. -/
def next_5_df (df : List FDREntry) (start_gameweek : Int) : List FDREntry :=
  let end_gameweek := start_gameweek + 4
  df.filter (fun e =>
    decide (start_gameweek ≤ e.gameweek) && decide (e.gameweek ≤ end_gameweek))

/-- The fixtures window of one team (line 265): the in-range entries of the
team sorted by gameweek, truncated to at most five after sorting. -/
def teamWindow (frame : List FDREntry) (team : String) : List FDREntry :=
  (sortByGameweek (frame.filter (fun e => e.team == team))).take 5

/-- One iteration of the team loop of analyze_next_5_fixtures_fdr (lines 261
to 287): filter the in-range entries to one team, sort by gameweek, keep the
first five, and build the flat row.  The guard mirrors the length test of
line 264 (teams that never occur in the frame produce no row). -/
def teamRow (frame : List FDREntry) (team : String) : Option TeamRow :=
  let team_data := sortByGameweek (frame.filter (fun e => e.team == team))
  if 0 < team_data.length then
    let fixtures := team_data.take 5
    some { team := team
           fixtures_analyzed := fixtures.length
           average_fdr :=
             ((((fixtures.map (fun e => e.difficulty_rating)).sum : Int) : ℚ) /
               (fixtures.length : ℚ))
           total_fdr := (fixtures.map (fun e => e.difficulty_rating)).sum
           gw1_opponent := (fixtures[0]?).map (fun e => e.opponent)
           gw1_fdr := (fixtures[0]?).map (fun e => e.difficulty_rating)
           gw1_home_away := (fixtures[0]?).map (fun e => e.home_away)
           gw2_opponent := (fixtures[1]?).map (fun e => e.opponent)
           gw2_fdr := (fixtures[1]?).map (fun e => e.difficulty_rating)
           gw2_home_away := (fixtures[1]?).map (fun e => e.home_away)
           gw3_opponent := (fixtures[2]?).map (fun e => e.opponent)
           gw3_fdr := (fixtures[2]?).map (fun e => e.difficulty_rating)
           gw3_home_away := (fixtures[2]?).map (fun e => e.home_away)
           gw4_opponent := (fixtures[3]?).map (fun e => e.opponent)
           gw4_fdr := (fixtures[3]?).map (fun e => e.difficulty_rating)
           gw4_home_away := (fixtures[3]?).map (fun e => e.home_away)
           gw5_opponent := (fixtures[4]?).map (fun e => e.opponent)
           gw5_fdr := (fixtures[4]?).map (fun e => e.difficulty_rating)
           gw5_home_away := (fixtures[4]?).map (fun e => e.home_away) }
  else none

/-- The team_analysis list of rows (lines 260 to 287): one candidate row per
distinct team of the filtered frame, in order of first occurrence. -/
def team_analysis (df : List FDREntry) (start_gameweek : Int) : List TeamRow :=
  (seriesUnique ((next_5_df df start_gameweek).map (fun e => e.team))).filterMap
    (teamRow (next_5_df df start_gameweek))

/-- Line 291: sort the rows ascending by average difficulty. -/
def sortRows (rows : List TeamRow) : List TeamRow :=
  List.insertionSort (fun a b => a.average_fdr ≤ b.average_fdr) rows

/-- Line 294: attach the rank column, the 1-based position in the sorted
sequence. -/
def rankRows (rows : List TeamRow) : List (Nat × TeamRow) :=
  rows.enum.map (fun p => (p.1 + 1, p.2))

/-- The analysis core of analyze_next_5_fixtures_fdr with the contents of
fpl_fdr_all.xlsx passed as a list.  When team_analysis is empty — a missing
or empty file, or no entry in the requested range — the sort_values call of
line 291 raises KeyError on the column-less frame, the broad except catches
it and the source returns None, modelled as `none`; a missing file returns
None at line 251 already, with the same model. -/
def analyze_next_5_fixtures_fdr (df : List FDREntry) (start_gameweek : Int) :
    Option (List (Nat × TeamRow)) :=
  if (team_analysis df start_gameweek).isEmpty then none
  else some (rankRows (sortRows (team_analysis df start_gameweek)))

/-! ### Order instances for the two sort keys -/

instance : IsTotal FDREntry (fun a b => a.gameweek ≤ b.gameweek) :=
  ⟨fun a b => Int.le_total a.gameweek b.gameweek⟩

instance : IsTrans FDREntry (fun a b => a.gameweek ≤ b.gameweek) :=
  ⟨fun _ _ _ h₁ h₂ => le_trans h₁ h₂⟩

instance : IsTotal TeamRow (fun a b => a.average_fdr ≤ b.average_fdr) :=
  ⟨fun a b => le_total a.average_fdr b.average_fdr⟩

instance : IsTrans TeamRow (fun a b => a.average_fdr ≤ b.average_fdr) :=
  ⟨fun _ _ _ h₁ h₂ => le_trans h₁ h₂⟩

/-! ### Helper lemmas -/

lemma mem_seriesUnique {l : List String} {y : String} :
    y ∈ seriesUnique l ↔ y ∈ l := by
  induction l with
  | nil => simp [seriesUnique]
  | cons x rest ih =>
    by_cases hyx : y = x
    · subst hyx
      simp [seriesUnique]
    · simp [seriesUnique, List.mem_filter, hyx, ih]

lemma seriesUnique_nodup (l : List String) : (seriesUnique l).Nodup := by
  induction l with
  | nil => simp [seriesUnique]
  | cons x rest ih =>
    rw [seriesUnique, List.nodup_cons]
    refine ⟨fun hx => ?_, List.Nodup.filter _ ih⟩
    have := (List.mem_filter.mp hx).2
    simp at this

lemma sortByGameweek_perm (l : List FDREntry) : (sortByGameweek l).Perm l :=
  List.perm_insertionSort _ l

lemma sortByGameweek_sorted (l : List FDREntry) :
    (sortByGameweek l).Pairwise (fun a b => a.gameweek ≤ b.gameweek) :=
  List.sorted_insertionSort _ l

lemma sortRows_perm (rows : List TeamRow) : (sortRows rows).Perm rows :=
  List.perm_insertionSort _ rows

lemma sortRows_sorted (rows : List TeamRow) :
    (sortRows rows).Pairwise (fun a b => a.average_fdr ≤ b.average_fdr) :=
  List.sorted_insertionSort _ rows

lemma teamRow_spec {frame : List FDREntry} {t : String} {row : TeamRow}
    (h : teamRow frame t = some row) :
    row.team = t ∧
    row.fixtures_analyzed = (teamWindow frame t).length ∧
    0 < row.fixtures_analyzed ∧
    row.total_fdr = ((teamWindow frame t).map (fun e => e.difficulty_rating)).sum ∧
    row.average_fdr = (row.total_fdr : ℚ) / (row.fixtures_analyzed : ℚ) := by
  rw [teamRow] at h
  split at h
  case isTrue hlen =>
    obtain rfl := Option.some.inj h
    refine ⟨rfl, rfl, ?_, rfl, rfl⟩
    show 0 < ((sortByGameweek (frame.filter (fun e => e.team == t))).take 5).length
    rw [List.length_take]
    omega
  case isFalse hlen => exact absurd h (by simp)

lemma teamRow_eq_some_of_mem {frame : List FDREntry} {t : String} {e : FDREntry}
    (he : e ∈ frame) (ht : e.team = t) : ∃ row, teamRow frame t = some row := by
  have hmem : e ∈ frame.filter (fun x => x.team == t) := by
    rw [List.mem_filter]
    exact ⟨he, by simp [ht]⟩
  have hlen : 0 < (sortByGameweek (frame.filter (fun x => x.team == t))).length := by
    rw [(sortByGameweek_perm _).length_eq]
    exact List.length_pos.mpr (List.ne_nil_of_mem hmem)
  have hs : (teamRow frame t).isSome := by
    rw [teamRow]
    simp [hlen]
  exact Option.isSome_iff_exists.mp hs

lemma mem_team_analysis {df : List FDREntry} {s : Int} {row : TeamRow} :
    row ∈ team_analysis df s ↔
      ∃ t, t ∈ seriesUnique ((next_5_df df s).map (fun e => e.team)) ∧
        teamRow (next_5_df df s) t = some row := by
  rw [team_analysis]
  exact List.mem_filterMap

lemma team_analysis_eq_nil_iff {df : List FDREntry} {s : Int} :
    team_analysis df s = [] ↔ next_5_df df s = [] := by
  constructor
  · intro h
    by_contra hne
    obtain ⟨e, he⟩ := List.exists_mem_of_ne_nil _ hne
    obtain ⟨row, hrow⟩ := teamRow_eq_some_of_mem he rfl
    have ht : e.team ∈ seriesUnique ((next_5_df df s).map (fun x => x.team)) :=
      mem_seriesUnique.mpr (List.mem_map_of_mem _ he)
    have : row ∈ team_analysis df s :=
      mem_team_analysis.mpr ⟨e.team, ht, hrow⟩
    rw [h] at this
    exact absurd this (List.not_mem_nil row)
  · intro h
    rw [team_analysis, h]
    simp [seriesUnique]

lemma analyze_eq_some_iff {df : List FDREntry} {s : Int} {out : List (Nat × TeamRow)} :
    analyze_next_5_fixtures_fdr df s = some out ↔
      team_analysis df s ≠ [] ∧ out = rankRows (sortRows (team_analysis df s)) := by
  rw [analyze_next_5_fixtures_fdr]
  by_cases h : (team_analysis df s).isEmpty
  · rw [if_pos h]
    simp only [List.isEmpty_iff] at h
    simp [h]
  · rw [if_neg h]
    simp only [List.isEmpty_iff] at h
    simp only [Option.some.injEq]
    exact ⟨fun hh => ⟨h, hh.symm⟩, fun hh => hh.2.symm⟩

lemma analyze_eq_none_iff {df : List FDREntry} {s : Int} :
    analyze_next_5_fixtures_fdr df s = none ↔ next_5_df df s = [] := by
  rw [analyze_next_5_fixtures_fdr, ← @team_analysis_eq_nil_iff df s]
  by_cases h : (team_analysis df s).isEmpty
  · simp only [List.isEmpty_iff] at h
    simp [h]
  · simp only [List.isEmpty_iff] at h
    simp [h]

lemma rankRows_map_snd (rows : List TeamRow) :
    (rankRows rows).map Prod.snd = rows := by
  rw [rankRows, List.map_map]
  exact List.enum_map_snd rows

lemma rankRows_length (rows : List TeamRow) :
    (rankRows rows).length = rows.length := by
  rw [rankRows, List.length_map, List.enum_length]

lemma rankRows_pairwise {R : TeamRow → TeamRow → Prop} {rows : List TeamRow}
    (h : rows.Pairwise R) :
    (rankRows rows).Pairwise (fun p q => R p.2 q.2) := by
  rw [rankRows, List.pairwise_map]
  have h₂ : ((rows.enum.map Prod.snd).Pairwise R) := by
    rw [List.enum_map_snd]
    exact h
  rw [List.pairwise_map] at h₂
  exact h₂

lemma rankRows_rank {rows : List TeamRow} {i : Nat} {p : Nat × TeamRow}
    (h : (rankRows rows)[i]? = some p) : p.1 = i + 1 := by
  rw [rankRows, List.getElem?_map, List.getElem?_enum] at h
  cases hq : rows[i]? with
  | none => rw [hq] at h; simp at h
  | some a =>
    rw [hq] at h
    simp only [Option.map_some', Option.some.injEq] at h
    rw [← h]

lemma snd_mem_team_analysis_of_mem_out {df : List FDREntry} {s : Int}
    {out : List (Nat × TeamRow)} {p : Nat × TeamRow}
    (h : analyze_next_5_fixtures_fdr df s = some out) (hp : p ∈ out) :
    p.2 ∈ team_analysis df s := by
  obtain ⟨-, rfl⟩ := analyze_eq_some_iff.mp h
  have hmem : p.2 ∈ (rankRows (sortRows (team_analysis df s))).map Prod.snd :=
    List.mem_map_of_mem Prod.snd hp
  rw [rankRows_map_snd] at hmem
  exact (sortRows_perm _).mem_iff.mp hmem

lemma filterMap_teamRow_teams_nodup (frame : List FDREntry) :
    ∀ ts : List String, ts.Nodup →
      ((ts.filterMap (teamRow frame)).map (fun r => r.team)).Nodup := by
  intro ts
  induction ts with
  | nil => simp
  | cons t rest ih =>
    intro hnd
    rw [List.nodup_cons] at hnd
    rw [List.filterMap_cons]
    cases htr : teamRow frame t with
    | none => exact ih hnd.2
    | some row =>
      rw [List.map_cons, List.nodup_cons]
      refine ⟨fun hmem => ?_, ih hnd.2⟩
      obtain ⟨row₂, hrow₂, hteam₂⟩ := List.mem_map.mp hmem
      obtain ⟨u, hu, hequ⟩ := List.mem_filterMap.mp hrow₂
      have h₁ : row.team = t := (teamRow_spec htr).1
      have h₂ : row₂.team = u := (teamRow_spec hequ).1
      rw [h₁, h₂] at hteam₂
      exact hnd.1 (hteam₂ ▸ hu)

lemma team_analysis_teams_nodup (df : List FDREntry) (s : Int) :
    ((team_analysis df s).map (fun r => r.team)).Nodup :=
  filterMap_teamRow_teams_nodup _ _ (seriesUnique_nodup _)

lemma rankRows_map_team (rows : List TeamRow) :
    (rankRows rows).map (fun p => p.2.team) = rows.map (fun r => r.team) := by
  rw [rankRows, List.map_map]
  have : ((fun p : Nat × TeamRow => p.2.team) ∘ fun p : Nat × TeamRow => (p.1 + 1, p.2))
      = (fun r : TeamRow => r.team) ∘ Prod.snd := rfl
  rw [this, ← List.map_map, List.enum_map_snd]

/-! ### Concrete inputs used by witnesses and counterexamples -/

/-- An entry of team Alpha at gameweek 1 with difficulty 2. -/
def e_A1 : FDREntry :=
  { fixture_id := 1, gameweek := 1, team := "Alpha", opponent := "Beta",
    home_away := "Home", difficulty_rating := 2, kickoff_time := "", finished := false }

/-- An entry of team Beta at gameweek 10, far outside a window starting at
gameweek 1. -/
def e_B10 : FDREntry :=
  { fixture_id := 2, gameweek := 10, team := "Beta", opponent := "Alpha",
    home_away := "Away", difficulty_rating := 4, kickoff_time := "", finished := false }

/-- A two-entry table: Alpha has one entry inside the window starting at
gameweek 1, Beta only an entry far outside it. -/
def df_pair : List FDREntry := [e_A1, e_B10]

/-- The single row the analysis produces on `df_pair` with start gameweek 1. -/
def row_A : TeamRow :=
  { team := "Alpha", fixtures_analyzed := 1, average_fdr := 2, total_fdr := 2,
    gw1_opponent := some "Beta", gw1_fdr := some 2, gw1_home_away := some "Home",
    gw2_opponent := none, gw2_fdr := none, gw2_home_away := none,
    gw3_opponent := none, gw3_fdr := none, gw3_home_away := none,
    gw4_opponent := none, gw4_fdr := none, gw4_home_away := none,
    gw5_opponent := none, gw5_fdr := none, gw5_home_away := none }

lemma analyze_df_pair : analyze_next_5_fixtures_fdr df_pair 1 = some [(1, row_A)] := by
  simp [analyze_next_5_fixtures_fdr, team_analysis, next_5_df, df_pair, e_A1, e_B10,
    seriesUnique, teamRow, sortByGameweek, List.insertionSort, List.orderedInsert,
    sortRows, rankRows, row_A, List.enum, List.enumFrom]

/-- Two entries of the same team Delta in the same gameweek 2 (a double
gameweek). -/
def e_D2a : FDREntry :=
  { fixture_id := 3, gameweek := 2, team := "Delta", opponent := "Epsilon",
    home_away := "Home", difficulty_rating := 3, kickoff_time := "", finished := false }

/-- The second Delta entry of gameweek 2. -/
def e_D2b : FDREntry :=
  { fixture_id := 4, gameweek := 2, team := "Delta", opponent := "Zeta",
    home_away := "Away", difficulty_rating := 4, kickoff_time := "", finished := false }

/-- A table in which team Delta plays twice in gameweek 2. -/
def df_double : List FDREntry := [e_D2a, e_D2b]

/-- A lookup with two team ids. -/
def teams₀ : Nat → Option String :=
  fun n => if n = 1 then some "Alpha" else if n = 2 then some "Beta" else none

/-- A raw fixture between team ids 1 (home) and 2 (away). -/
def fx₀ : RawFixture :=
  { id := 7, event := 3, team_h := 1, team_a := 2, team_h_difficulty := 2,
    team_a_difficulty := 4, kickoff_time := "", finished := false }

/-! ### Claims -/

/-- C1: whenever the analysis returns a sequence of rows, that sequence is
sorted non-decreasing by average difficulty, and the rank attached to each
row equals its 1-based position in the sequence. -/
theorem C1_output_sorted_and_ranked (df : List FDREntry) (s : Int)
    (out : List (Nat × TeamRow))
    (h : analyze_next_5_fixtures_fdr df s = some out) :
    out.Pairwise (fun p q => p.2.average_fdr ≤ q.2.average_fdr) ∧
    ∀ (i : Nat) (p : Nat × TeamRow), out[i]? = some p → p.1 = i + 1 := by
  obtain ⟨-, rfl⟩ := analyze_eq_some_iff.mp h
  exact ⟨rankRows_pairwise (sortRows_sorted _), fun i p hp => rankRows_rank hp⟩

/-- Witness for C1 at a concrete input. -/
theorem C1_witness :
    analyze_next_5_fixtures_fdr df_pair 1 = some [(1, row_A)] ∧
    (([(1, row_A)] : List (Nat × TeamRow)).Pairwise
        (fun p q => p.2.average_fdr ≤ q.2.average_fdr) ∧
      ∀ (i : Nat) (p : Nat × TeamRow),
        ([(1, row_A)] : List (Nat × TeamRow))[i]? = some p → p.1 = i + 1) :=
  ⟨analyze_df_pair, C1_output_sorted_and_ranked df_pair 1 [(1, row_A)] analyze_df_pair⟩

/-- C2 as stated is false on the code: team Beta is known to the system (it
appears in the table) and has zero entries with gameweek in the window of
start gameweek 1, yet the analysis emits no row at all for Beta — the rows
mention only Alpha, and no row with fixtures_analyzed = 0 exists. -/
theorem C2_counterexample :
    ("Beta" ∈ df_pair.map (fun e => e.team)) ∧
    (next_5_df df_pair 1).filter (fun e => e.team == "Beta") = [] ∧
    (analyze_next_5_fixtures_fdr df_pair 1).map (fun out => out.map (fun p => p.2.team))
      = some ["Alpha"] := by decide

/-- C2 amended: a team with zero entries with gameweek in the requested
range is silently omitted — no row of the output carries its name. -/
theorem C2_teams_without_entries_in_range_are_omitted (df : List FDREntry)
    (s : Int) (t : String) (out : List (Nat × TeamRow))
    (h : analyze_next_5_fixtures_fdr df s = some out)
    (ht : (next_5_df df s).filter (fun e => e.team == t) = []) :
    ∀ p ∈ out, p.2.team ≠ t := by
  intro p hp hteam
  obtain ⟨u, hu, hrow⟩ := mem_team_analysis.mp (snd_mem_team_analysis_of_mem_out h hp)
  have hut : u = t := (teamRow_spec hrow).1.symm.trans hteam
  obtain ⟨e, he, hte⟩ := List.mem_map.mp (mem_seriesUnique.mp hu)
  have hmem2 : e ∈ (next_5_df df s).filter (fun x => x.team == t) := by
    rw [List.mem_filter]
    exact ⟨he, by simp [hte.trans hut]⟩
  rw [ht] at hmem2
  exact absurd hmem2 (List.not_mem_nil e)

/-- Witness for the amended C2 at a concrete input. -/
theorem C2_witness : row_A.team ≠ "Beta" :=
  C2_teams_without_entries_in_range_are_omitted df_pair 1 "Beta" [(1, row_A)]
    analyze_df_pair (by decide) (1, row_A) (List.mem_cons_self _ _)

/-- C3: in every emitted row with a non-empty window, the total difficulty
equals the average difficulty multiplied by the number of fixtures analyzed
(exactly, in rational arithmetic). -/
theorem C3_total_eq_average_mul_count (df : List FDREntry) (s : Int)
    (out : List (Nat × TeamRow))
    (h : analyze_next_5_fixtures_fdr df s = some out) :
    ∀ p ∈ out, 0 < p.2.fixtures_analyzed →
      (p.2.total_fdr : ℚ) = p.2.average_fdr * (p.2.fixtures_analyzed : ℚ) := by
  intro p hp hpos
  obtain ⟨u, -, hrow⟩ := mem_team_analysis.mp (snd_mem_team_analysis_of_mem_out h hp)
  obtain ⟨-, -, -, -, havg⟩ := teamRow_spec hrow
  rw [havg, div_mul_cancel₀]
  exact Nat.cast_ne_zero.mpr (Nat.pos_iff_ne_zero.mp hpos)

/-- Witness for C3 at a concrete input. -/
theorem C3_witness :
    (row_A.total_fdr : ℚ) = row_A.average_fdr * (row_A.fixtures_analyzed : ℚ) :=
  C3_total_eq_average_mul_count df_pair 1 [(1, row_A)] analyze_df_pair
    (1, row_A) (List.mem_cons_self _ _) (by decide)

/-- C4: the window of a team is exactly the ascending-gameweek-ordered
selection from the in-range entries of that team, truncated to at most five
entries after sorting: its length is the minimum of five and the number of
in-range entries, it is sorted by gameweek, every member is an in-range
entry of the team, and together with some remainder of no smaller gameweeks
it exhausts the in-range entries of the team (so the five kept entries are
the gameweek-smallest ones, not the first five by original index). -/
theorem C4_window_characterization (df : List FDREntry) (s : Int) (t : String) :
    (teamWindow (next_5_df df s) t).length
        = min 5 ((next_5_df df s).filter (fun e => e.team == t)).length ∧
    (teamWindow (next_5_df df s) t).Pairwise (fun a b => a.gameweek ≤ b.gameweek) ∧
    (∀ e ∈ teamWindow (next_5_df df s) t,
        e ∈ df ∧ e.team = t ∧ s ≤ e.gameweek ∧ e.gameweek ≤ s + 4) ∧
    ∃ rest, (teamWindow (next_5_df df s) t ++ rest).Perm
        ((next_5_df df s).filter (fun e => e.team == t)) ∧
      ∀ e₁ ∈ teamWindow (next_5_df df s) t, ∀ e₂ ∈ rest,
        e₁.gameweek ≤ e₂.gameweek := by
  refine ⟨?_, ?_, ?_, ?_⟩
  · rw [teamWindow, List.length_take, (sortByGameweek_perm _).length_eq]
  · exact List.Pairwise.sublist (List.take_sublist _ _) (sortByGameweek_sorted _)
  · intro e he
    rw [teamWindow] at he
    have h₁ := (List.take_sublist _ _).subset he
    have h₂ := (sortByGameweek_perm _).mem_iff.mp h₁
    rw [List.mem_filter] at h₂
    obtain ⟨h₃, h₄⟩ := h₂
    simp only [next_5_df] at h₃
    rw [List.mem_filter] at h₃
    obtain ⟨h₅, h₆⟩ := h₃
    simp only [Bool.and_eq_true, decide_eq_true_eq] at h₆
    simp only [beq_iff_eq] at h₄
    exact ⟨h₅, h₄, h₆.1, h₆.2⟩
  · refine ⟨(sortByGameweek ((next_5_df df s).filter (fun e => e.team == t))).drop 5,
      ?_, ?_⟩
    · rw [teamWindow, List.take_append_drop]
      exact sortByGameweek_perm _
    · intro e₁ h₁ e₂ h₂
      rw [teamWindow] at h₁
      have hpw := sortByGameweek_sorted ((next_5_df df s).filter (fun e => e.team == t))
      rw [← List.take_append_drop 5
        (sortByGameweek ((next_5_df df s).filter (fun e => e.team == t)))] at hpw
      exact (List.pairwise_append.mp hpw).2.2 e₁ h₁ e₂ h₂

/-- Witness for C4 at a concrete input. -/
theorem C4_witness :
    (teamWindow (next_5_df df_pair 1) "Alpha").length
        = min 5 ((next_5_df df_pair 1).filter (fun e => e.team == "Alpha")).length ∧
    (teamWindow (next_5_df df_pair 1) "Alpha").Pairwise (fun a b => a.gameweek ≤ b.gameweek) ∧
    (∀ e ∈ teamWindow (next_5_df df_pair 1) "Alpha",
        e ∈ df_pair ∧ e.team = "Alpha" ∧ 1 ≤ e.gameweek ∧ e.gameweek ≤ 1 + 4) ∧
    ∃ rest, (teamWindow (next_5_df df_pair 1) "Alpha" ++ rest).Perm
        ((next_5_df df_pair 1).filter (fun e => e.team == "Alpha")) ∧
      ∀ e₁ ∈ teamWindow (next_5_df df_pair 1) "Alpha", ∀ e₂ ∈ rest,
        e₁.gameweek ≤ e₂.gameweek :=
  C4_window_characterization df_pair 1 "Alpha"

/-- C5 as stated is false on the code: with a double gameweek (team Delta
plays twice in gameweek 2) the analysis happily produces a window of two
entries with equal gameweeks, so the window gameweek sequence is not
strictly increasing. -/
theorem C5_counterexample :
    (analyze_next_5_fixtures_fdr df_double 1).map
        (fun out => out.map (fun p => p.2.fixtures_analyzed)) = some [2] ∧
    (teamWindow (next_5_df df_double 1) "Delta").map (fun e => e.gameweek) = [2, 2] ∧
    ¬ ((teamWindow (next_5_df df_double 1) "Delta").map (fun e => e.gameweek)).Pairwise
        (fun a b => a < b) := by decide

/-- C5 amended: every window has at most five entries and its gameweek
sequence is non-decreasing; it is strictly increasing whenever the in-range
entries of the team have pairwise distinct gameweeks (which a double
gameweek violates). -/
theorem C5_window_bounded_and_sorted (df : List FDREntry) (s : Int) (t : String) :
    (teamWindow (next_5_df df s) t).length ≤ 5 ∧
    ((teamWindow (next_5_df df s) t).map (fun e => e.gameweek)).Pairwise
      (fun a b => a ≤ b) ∧
    (((next_5_df df s).filter (fun e => e.team == t)).Pairwise
        (fun a b => a.gameweek ≠ b.gameweek) →
      ((teamWindow (next_5_df df s) t).map (fun e => e.gameweek)).Pairwise
        (fun a b => a < b)) := by
  have hsorted : (teamWindow (next_5_df df s) t).Pairwise
      (fun a b => a.gameweek ≤ b.gameweek) :=
    List.Pairwise.sublist (List.take_sublist _ _) (sortByGameweek_sorted _)
  refine ⟨?_, ?_, ?_⟩
  · rw [teamWindow, List.length_take]
    exact min_le_left _ _
  · rw [List.pairwise_map]
    exact hsorted
  · intro hdist
    rw [List.pairwise_map]
    have hS : (sortByGameweek ((next_5_df df s).filter (fun e => e.team == t))).Pairwise
        (fun a b => a.gameweek ≠ b.gameweek) :=
      ((sortByGameweek_perm _).pairwise_iff (fun {_ _} h => h.symm)).mpr hdist
    have hne : (teamWindow (next_5_df df s) t).Pairwise
        (fun a b => a.gameweek ≠ b.gameweek) :=
      List.Pairwise.sublist (List.take_sublist _ _) hS
    exact (hsorted.and hne).imp (fun h => lt_of_le_of_ne h.1 h.2)

/-- Witness for the amended C5 at a concrete input. -/
theorem C5_witness :
    (teamWindow (next_5_df df_double 1) "Delta").length ≤ 5 ∧
    ((teamWindow (next_5_df df_double 1) "Delta").map (fun e => e.gameweek)).Pairwise
      (fun a b => a ≤ b) ∧
    (((next_5_df df_double 1).filter (fun e => e.team == "Delta")).Pairwise
        (fun a b => a.gameweek ≠ b.gameweek) →
      ((teamWindow (next_5_df df_double 1) "Delta").map (fun e => e.gameweek)).Pairwise
        (fun a b => a < b)) :=
  C5_window_bounded_and_sorted df_double 1 "Delta"

/-- C7: flattening one raw fixture whose two team ids are both in the
lookup yields exactly two entries — a home perspective and an away
perspective — with team and opponent swapped between them, opposite venues,
and each difficulty taken directly from the corresponding per-side field of
the payload. -/
theorem C7_flatten_two_perspectives (teams : Nat → Option String)
    (fx : RawFixture) (home_name away_name : String)
    (hh : teams fx.team_h = some home_name)
    (ha : teams fx.team_a = some away_name) :
    ∃ eh ea, flattenFixture teams fx = some [eh, ea] ∧
      eh.team = home_name ∧ eh.opponent = away_name ∧
      ea.team = away_name ∧ ea.opponent = home_name ∧
      eh.team = ea.opponent ∧ eh.opponent = ea.team ∧
      eh.home_away = "Home" ∧ ea.home_away = "Away" ∧
      eh.difficulty_rating = fx.team_h_difficulty ∧
      ea.difficulty_rating = fx.team_a_difficulty ∧
      eh.gameweek = fx.event ∧ ea.gameweek = fx.event ∧
      eh.fixture_id = fx.id ∧ ea.fixture_id = fx.id := by
  rw [flattenFixture, hh, ha]
  exact ⟨_, _, rfl, rfl, rfl, rfl, rfl, rfl, rfl, rfl, rfl, rfl, rfl, rfl, rfl,
    rfl, rfl⟩

/-- Witness for C7 at a concrete lookup and fixture. -/
theorem C7_witness :
    teams₀ fx₀.team_h = some "Alpha" ∧ teams₀ fx₀.team_a = some "Beta" ∧
    (∃ eh ea, flattenFixture teams₀ fx₀ = some [eh, ea] ∧
      eh.team = "Alpha" ∧ eh.opponent = "Beta" ∧
      ea.team = "Beta" ∧ ea.opponent = "Alpha" ∧
      eh.team = ea.opponent ∧ eh.opponent = ea.team ∧
      eh.home_away = "Home" ∧ ea.home_away = "Away" ∧
      eh.difficulty_rating = fx₀.team_h_difficulty ∧
      ea.difficulty_rating = fx₀.team_a_difficulty ∧
      eh.gameweek = fx₀.event ∧ ea.gameweek = fx₀.event ∧
      eh.fixture_id = fx₀.id ∧ ea.fixture_id = fx₀.id) :=
  ⟨rfl, rfl, C7_flatten_two_perspectives teams₀ fx₀ "Alpha" "Beta" rfl rfl⟩

/-- C8 as stated is false on the code: the source performs no validation of
start_gameweek at all.  With the non-positive start gameweek 0 the analysis
does not fail; it returns a ranking with a row (gameweek 1 lies inside the
window from 0 to 4). -/
theorem C8_counterexample :
    ¬ (0 : Int) > 0 ∧
    (analyze_next_5_fixtures_fdr df_pair 0).map
      (fun out => out.map (fun p => (p.1, p.2.team))) = some [(1, "Alpha")] := by
  decide

/-- C8 amended: the analysis never rejects a start gameweek; for every
start, non-positive included, it fails exactly when no entry has gameweek
in the five-week range, and otherwise emits rows. -/
theorem C8_no_start_gameweek_validation (df : List FDREntry) (s : Int) :
    analyze_next_5_fixtures_fdr df s = none ↔ next_5_df df s = [] :=
  analyze_eq_none_iff

/-- Witness for the amended C8 at a concrete non-positive start gameweek. -/
theorem C8_witness :
    analyze_next_5_fixtures_fdr df_pair 0 = none ↔ next_5_df df_pair 0 = [] :=
  C8_no_start_gameweek_validation df_pair 0

/-- C9: an empty entry set makes the analysis fail with `none` (the model of
the None return of the source), and a successful analysis never returns an
empty ranking. -/
theorem C9_failure_instead_of_empty_ranking :
    (∀ s : Int, analyze_next_5_fixtures_fdr [] s = none) ∧
    (∀ (df : List FDREntry) (s : Int) (out : List (Nat × TeamRow)),
        analyze_next_5_fixtures_fdr df s = some out → out ≠ []) := by
  constructor
  · intro s
    rw [analyze_eq_none_iff]
    rfl
  · intro df s out h hnil
    obtain ⟨hne, houtdef⟩ := analyze_eq_some_iff.mp h
    apply hne
    rw [houtdef] at hnil
    have hlen := congrArg List.length hnil
    rw [rankRows_length, (sortRows_perm _).length_eq] at hlen
    exact List.length_eq_zero.mp hlen

/-- Witness for C9 at a concrete input. -/
theorem C9_witness :
    analyze_next_5_fixtures_fdr ([] : List FDREntry) 1 = none ∧
    ([(1, row_A)] : List (Nat × TeamRow)) ≠ [] :=
  ⟨C9_failure_instead_of_empty_ranking.1 1,
   C9_failure_instead_of_empty_ranking.2 df_pair 1 [(1, row_A)] analyze_df_pair⟩

/-- C10: every emitted row analyzed at least one fixture (rows are built
only for teams that occur in the filtered range, so the mean is never taken
over an empty window), and no team appears in more than one row. -/
theorem C10_rows_have_fixtures_and_unique_teams (df : List FDREntry) (s : Int)
    (out : List (Nat × TeamRow))
    (h : analyze_next_5_fixtures_fdr df s = some out) :
    (∀ p ∈ out, 1 ≤ p.2.fixtures_analyzed) ∧
    (out.map (fun p => p.2.team)).Nodup := by
  constructor
  · intro p hp
    obtain ⟨u, -, hrow⟩ := mem_team_analysis.mp (snd_mem_team_analysis_of_mem_out h hp)
    exact (teamRow_spec hrow).2.2.1
  · obtain ⟨-, rfl⟩ := analyze_eq_some_iff.mp h
    rw [rankRows_map_team]
    exact ((sortRows_perm _).map _).nodup_iff.mpr (team_analysis_teams_nodup df s)

/-- Witness for C10 at a concrete input. -/
theorem C10_witness :
    (∀ p ∈ ([(1, row_A)] : List (Nat × TeamRow)), 1 ≤ p.2.fixtures_analyzed) ∧
    (([(1, row_A)] : List (Nat × TeamRow)).map (fun p => p.2.team)).Nodup :=
  C10_rows_have_fixtures_and_unique_teams df_pair 1 [(1, row_A)] analyze_df_pair

end FPL
